import Mathlib

/-!
Verification of the capture-mcp-server core: the rate-limited request
gateway (`src/utils/api-client.ts`), the input sanitizer
(`ApiClient.sanitizeInput`), the per-API response shapers
(`src/tools/sam-tools.ts`, `src/tools/usaspending-tools.ts`,
`src/tools/tango-tools.ts`), and the cross-API join engine
(`src/tools/join-tools.ts`).

JavaScript numbers are modelled as exact rationals (`Rat`), JSON values by
the inductive `JValue`, optional / possibly-absent JSON fields by `Option`,
and upstream HTTP outcomes by the inductive `Outcome` (so that the
try/catch structure of the client becomes a total function — totality is
the model of "never propagates an exception").
-/

/-! ## JavaScript string primitives

`String.prototype.trim` removes the ECMAScript whitespace characters from
both ends; the sanitizer's regex `/[<>\x22\x27&]/g` removes angle brackets,
double and single quotes and ampersands.  Characters are compared by code
point to keep every predicate decidable.
-/

/-- The ECMAScript whitespace set used by `String.prototype.trim`:
TAB, LF, VT, FF, CR, SP, NBSP, the Unicode space separators, LS, PS and
the BOM. -/
def isJsWhitespace (c : Char) : Bool :=
  (c.toNat = 9) || (c.toNat = 10) || (c.toNat = 11) || (c.toNat = 12) ||
  (c.toNat = 13) || (c.toNat = 32) || (c.toNat = 160) || (c.toNat = 5760) ||
  (8192 ≤ c.toNat && c.toNat ≤ 8202) || (c.toNat = 8232) || (c.toNat = 8233) ||
  (c.toNat = 8239) || (c.toNat = 8287) || (c.toNat = 12288) || (c.toNat = 65279)

/-- The characters removed by `ApiClient.sanitizeInput`'s regex
`/[<>\x22\x27&]/g`: `<` (60), `>` (62), double quote (34), single
quote (39), ampersand (38). -/
def isSanitizerStripped (c : Char) : Bool :=
  (c.toNat = 60) || (c.toNat = 62) || (c.toNat = 34) ||
  (c.toNat = 39) || (c.toNat = 38)

/-- A character is an ASCII/C1 control character (used only to state claims
about the sanitizer, not by the code model itself). -/
def isControlChar (c : Char) : Bool :=
  (c.toNat < 32) || (127 ≤ c.toNat && c.toNat ≤ 159)

/-- `String.prototype.trim`, left end. -/
def jsTrimLeft (l : List Char) : List Char := l.dropWhile isJsWhitespace

/-- `String.prototype.trim`, right end. -/
def jsTrimRight (l : List Char) : List Char :=
  (l.reverse.dropWhile isJsWhitespace).reverse

/-- `String.prototype.trim`: whitespace removed from both ends. -/
def jsTrim (l : List Char) : List Char := jsTrimRight (jsTrimLeft l)

/-- The string branch of `ApiClient.sanitizeInput`:
`input.replace(/[<>\x22\x27&]/g, '').trim()`. -/
def sanitizeString (s : String) : String :=
  String.mk (jsTrim (s.data.filter (fun c => !(isSanitizerStripped c))))

/-! ## JSON values and the recursive sanitizer -/

/-- A JSON value as handled by `ApiClient.sanitizeInput`.  JavaScript
`null`/`undefined` are conflated into `.null`; numbers are exact
rationals. -/
inductive JValue where
  | null : JValue
  | bool : Bool → JValue
  | num : Rat → JValue
  | str : String → JValue
  | arr : List JValue → JValue
  | obj : List (String × JValue) → JValue

mutual

/-- `ApiClient.sanitizeInput`: strings are cleaned by `sanitizeString`,
arrays are mapped element-wise, objects are rebuilt entry by entry with
the keys left untouched, and every other value passes through. -/
def sanitizeInput : JValue → JValue
  | .str s => .str (sanitizeString s)
  | .arr xs => .arr (sanitizeArr xs)
  | .obj kvs => .obj (sanitizeObj kvs)
  | v => v

/-- `input.map(item => this.sanitizeInput(item))`. -/
def sanitizeArr : List JValue → List JValue
  | [] => []
  | x :: xs => sanitizeInput x :: sanitizeArr xs

/-- `for (const [key, value] of Object.entries(input)) sanitized[key] = this.sanitizeInput(value)`. -/
def sanitizeObj : List (String × JValue) → List (String × JValue)
  | [] => []
  | (k, v) :: kvs => (k, sanitizeInput v) :: sanitizeObj kvs

end

/-! ### Sanitizer lemmas -/

theorem dropWhile_self_idem (p : α → Bool) (l : List α) :
    (l.dropWhile p).dropWhile p = l.dropWhile p := by
  induction l with
  | nil => simp
  | cons c cs ih =>
    by_cases h : p c <;> simp [List.dropWhile_cons, h, ih]

theorem dropWhile_head_not (p : α → Bool) (l : List α) (c : α)
    (h : (l.dropWhile p).head? = some c) : p c = false := by
  induction l with
  | nil => simp at h
  | cons a as ih =>
    by_cases ha : p a
    · simp [List.dropWhile_cons, ha] at h
      exact ih h
    · simp [List.dropWhile_cons, ha] at h
      subst h
      simpa using ha

theorem jsTrimRight_prefix (l : List Char) : ∃ t, l = jsTrimRight l ++ t := by
  obtain ⟨t, ht⟩ := @List.dropWhile_suffix _ l.reverse isJsWhitespace
  refine ⟨t.reverse, ?_⟩
  have := congrArg List.reverse ht
  simpa [jsTrimRight] using this.symm

theorem jsTrimRight_idem (l : List Char) :
    jsTrimRight (jsTrimRight l) = jsTrimRight l := by
  simp [jsTrimRight, dropWhile_self_idem]

theorem jsTrimLeft_jsTrimRight_jsTrimLeft (l : List Char) :
    jsTrimLeft (jsTrimRight (jsTrimLeft l)) = jsTrimRight (jsTrimLeft l) := by
  cases h : jsTrimRight (jsTrimLeft l) with
  | nil => simp [jsTrimLeft, h]
  | cons c t =>
    obtain ⟨r, hr⟩ := jsTrimRight_prefix (jsTrimLeft l)
    rw [h] at hr
    have hc : (jsTrimLeft l).head? = some c := by
      rw [hr]; rfl
    have : isJsWhitespace c = false := dropWhile_head_not _ _ _ hc
    simp [jsTrimLeft, List.dropWhile_cons, this]

theorem jsTrim_idem (l : List Char) : jsTrim (jsTrim l) = jsTrim l := by
  unfold jsTrim
  rw [jsTrimLeft_jsTrimRight_jsTrimLeft, jsTrimRight_idem]

theorem jsTrim_sublist (l : List Char) : (jsTrim l).Sublist l := by
  have h1 : (jsTrimLeft l).Sublist l := List.dropWhile_sublist _
  have h2 : (jsTrim l).Sublist (jsTrimLeft l) := by
    refine (@List.reverse_sublist _ (jsTrim l) (jsTrimLeft l)).mp ?_
    exact (by simpa [jsTrim, jsTrimRight] using
      @List.dropWhile_sublist _ (jsTrimLeft l).reverse isJsWhitespace)
  exact h2.trans h1

theorem sanitizeString_idem (s : String) :
    sanitizeString (sanitizeString s) = sanitizeString s := by
  unfold sanitizeString
  congr 1
  have hmem : ∀ c ∈ jsTrim (s.data.filter (fun c => !(isSanitizerStripped c))),
      (!(isSanitizerStripped c)) = true := by
    intro c hc
    have : c ∈ s.data.filter (fun c => !(isSanitizerStripped c)) :=
      (jsTrim_sublist _).mem hc
    exact (List.mem_filter.mp this).2
  rw [show (String.mk (jsTrim (s.data.filter fun c => !(isSanitizerStripped c)))).data
      = jsTrim (s.data.filter fun c => !(isSanitizerStripped c)) from rfl]
  rw [List.filter_eq_self.mpr hmem, jsTrim_idem]

theorem sanitizeString_length_le (s : String) :
    (sanitizeString s).length ≤ s.length := by
  have h1 : (jsTrim (s.data.filter (fun c => !(isSanitizerStripped c)))).length
      ≤ (s.data.filter (fun c => !(isSanitizerStripped c))).length :=
    (jsTrim_sublist _).length_le
  have h2 : (s.data.filter (fun c => !(isSanitizerStripped c))).length ≤ s.data.length :=
    (List.filter_sublist _).length_le
  show (jsTrim (s.data.filter (fun c => !(isSanitizerStripped c)))).length ≤ s.data.length
  exact le_trans h1 h2

mutual

theorem sanitizeInput_idem : ∀ v, sanitizeInput (sanitizeInput v) = sanitizeInput v
  | .null => rfl
  | .bool _ => rfl
  | .num _ => rfl
  | .str s => congrArg JValue.str (sanitizeString_idem s)
  | .arr xs => congrArg JValue.arr (sanitizeArr_idem xs)
  | .obj kvs => congrArg JValue.obj (sanitizeObj_idem kvs)

theorem sanitizeArr_idem : ∀ xs, sanitizeArr (sanitizeArr xs) = sanitizeArr xs
  | [] => rfl
  | x :: xs => by
    show sanitizeInput (sanitizeInput x) :: sanitizeArr (sanitizeArr xs)
        = sanitizeInput x :: sanitizeArr xs
    rw [sanitizeInput_idem x, sanitizeArr_idem xs]

theorem sanitizeObj_idem : ∀ kvs, sanitizeObj (sanitizeObj kvs) = sanitizeObj kvs
  | [] => rfl
  | (k, v) :: kvs => by
    show (k, sanitizeInput (sanitizeInput v)) :: sanitizeObj (sanitizeObj kvs)
        = (k, sanitizeInput v) :: sanitizeObj kvs
    rw [sanitizeInput_idem v, sanitizeObj_idem kvs]

end

/-! ## Rate-limited request gateway (`ApiClient`)

The client owns one last-call timestamp and one fixed delay constant per
upstream family.  `samGet` / `usaspendingGet` / `usaspendingPost` first
await `enforceRateLimit` and then perform the HTTP request inside a
try/catch whose catch branch is `handleError`; each call is modelled as a
total function from the outcome of the underlying HTTP attempt to an
`ApiResponse`, paired with the trace of gate and request steps it
performs. -/

/-- The upstream API families served by the client. -/
inductive ApiFamily where
  | sam : ApiFamily
  | usaspending : ApiFamily
  | tango : ApiFamily
deriving DecidableEq

/-- `ApiClient.SAM_DELAY_MS`. -/
def SAM_DELAY_MS : Nat := 100

/-- `ApiClient.USASPENDING_DELAY_MS`. -/
def USASPENDING_DELAY_MS : Nat := 3600

/-- Modelled from the spec: the delay constant of the aggregator (Tango)
family.  `ApiClient.tangoGet` is referenced by `src/tools/tango-tools.ts`
but its implementation is not part of the provided sources; the spec fixes
the aggregator family's configured minimum interval at about 100 ms. -/
def TANGO_DELAY_MS : Nat := 100

/-- The outcome of one attempted HTTP request, as distinguished by axios:
a response arrived (`ok`), the server answered with an error status
(`httpError`, carrying the status, the serialized response body — absent
or empty when the server sent none — and the generic error message), no
response arrived at all (`noResponse`), or the request could not be
constructed (`requestError`). -/
inductive Outcome (T : Type) where
  | ok (data : T)
  | httpError (status : Nat) (body : Option String) (message : String)
  | noResponse
  | requestError (message : String)

/-- `ApiResponse<T>` from `src/utils/api-client.ts`: `data` is `none`
exactly when the source sets it to `null`. -/
structure ApiResponse (T : Type) where
  data : Option T
  success : Bool
  error : Option String

/-- JavaScript `a || b` for an optional string (empty string is falsy). -/
def jsOrString (a : Option String) (b : String) : String :=
  match a with
  | some s => if s = "" then b else s
  | none => b

/-- A minimal model of `JSON.stringify` on a string value: quote it,
escaping backslashes and double quotes. -/
def jsonQuote (s : String) : String :=
  "\x22" ++ String.mk (s.data.flatMap (fun c =>
    if c.toNat = 34 || c.toNat = 92 then [Char.ofNat 92, c] else [c])) ++ "\x22"

/-- `ApiClient.handleError`: classifies a failed axios call.  The `ok`
case never reaches the catch branch in the source; it is kept only to
make the function total. -/
def handleError {T : Type} : Outcome T → ApiResponse T
  | .ok d => { data := some d, success := true, error := none }
  | .httpError status body message =>
      { data := none, success := false,
        error := some ("API Error " ++ toString status ++ ": "
          ++ jsonQuote (jsOrString body message)) }
  | .noResponse =>
      { data := none, success := false,
        error := some "Network error: No response received from API" }
  | .requestError message =>
      { data := none, success := false,
        error := some ("Request error: " ++ message) }

/-- One observable step of a gated call. -/
inductive CallStep where
  | gate (family : ApiFamily) (intervalMs : Nat)
  | httpGet (family : ApiFamily) (endpoint : String)
  | httpPost (family : ApiFamily) (endpoint : String)
deriving DecidableEq

/-- The family an observable step belongs to. -/
def CallStep.family : CallStep → ApiFamily
  | .gate f _ => f
  | .httpGet f _ => f
  | .httpPost f _ => f

/-- The response and the trace of one gated call. -/
structure GatedCall (T : Type) where
  resp : ApiResponse T
  trace : List CallStep

/-- `ApiClient.samGet`: gate on the SAM family, then attempt the GET; the
try branch wraps the payload, the catch branch is `handleError`. -/
def samGet {T : Type} (endpoint : String) (o : Outcome T) : GatedCall T :=
  { resp :=
      match o with
      | .ok d => { data := some d, success := true, error := none }
      | e => handleError e
    trace := [.gate .sam SAM_DELAY_MS, .httpGet .sam endpoint] }

/-- `ApiClient.usaspendingGet`. -/
def usaspendingGet {T : Type} (endpoint : String) (o : Outcome T) : GatedCall T :=
  { resp :=
      match o with
      | .ok d => { data := some d, success := true, error := none }
      | e => handleError e
    trace := [.gate .usaspending USASPENDING_DELAY_MS, .httpGet .usaspending endpoint] }

/-- `ApiClient.usaspendingPost`. -/
def usaspendingPost {T : Type} (endpoint : String) (o : Outcome T) : GatedCall T :=
  { resp :=
      match o with
      | .ok d => { data := some d, success := true, error := none }
      | e => handleError e
    trace := [.gate .usaspending USASPENDING_DELAY_MS, .httpPost .usaspending endpoint] }

/-- Modelled from the spec: `ApiClient.tangoGet`, the aggregator-family
gateway call used by `src/tools/tango-tools.ts` but absent from the
provided sources.  Per the spec it is gated like the other families, with
the aggregator's fixed interval, and classifies failures the same way. -/
def tangoGet {T : Type} (endpoint : String) (o : Outcome T) : GatedCall T :=
  { resp :=
      match o with
      | .ok d => { data := some d, success := true, error := none }
      | e => handleError e
    trace := [.gate .tango TANGO_DELAY_MS, .httpGet .tango endpoint] }

/-! ### Concurrent behaviour of `enforceRateLimit`

`enforceRateLimit` reads `Date.now()`, compares it with the family's
last-call timestamp, sleeps for the remaining delta if it is below the
delay constant, and only after waking writes the new timestamp.  Under
the JavaScript event loop, N calls issued in the same tick all execute
this synchronous prefix before any timer fires: a caller that must sleep
does not update the timestamp first, so every later caller computes its
delay against the same stale value, and all sleeping callers wake
together.  `enforceRateLimitConcurrent` replays exactly this schedule for
N callers that all arrive at time `t0` with last-call timestamp `last0`:
phase one runs the prefixes in arrival order (`Sum.inl t` is a caller
that passed the gate immediately at time `t` and wrote the timestamp;
`Sum.inr t` is a caller whose timer was set to fire at `t`), phase two
fires the timers in order.  The result is the list of gate-release times
in release order. -/

/-- The wait `enforceRateLimit` computes from the current clock and the
family's last-call timestamp: `DELAY - (now - last)` when the elapsed
time is below the delay, else zero. -/
def rateLimitWait (delayMs now last : Int) : Int :=
  if now - last < delayMs then delayMs - (now - last) else 0

/-- Phase one: the synchronous prefixes of N concurrent
`enforceRateLimit` calls, in arrival order.  A caller with zero wait
releases at `t0` and writes the timestamp; a waiting caller schedules a
timer and leaves the timestamp unchanged. -/
def rateLimitPrefixes (delayMs t0 : Int) : Nat → Int → List (Sum Int Int)
  | 0, _ => []
  | n + 1, last =>
    let w := rateLimitWait delayMs t0 last
    if w = 0 then Sum.inl t0 :: rateLimitPrefixes delayMs t0 n t0
    else Sum.inr (t0 + w) :: rateLimitPrefixes delayMs t0 n last

/-- Insert a newly scheduled timer behind every already scheduled timer
that fires no later (timers with equal fire times keep scheduling
order). -/
def insertTimer (t : Int) : List Int → List Int
  | [] => [t]
  | x :: xs => if x ≤ t then x :: insertTimer t xs else t :: x :: xs

/-- The firing order of the scheduled timers: ascending fire time, stable
in scheduling order. -/
def timerOrder (ts : List Int) : List Int :=
  ts.foldl (fun acc t => insertTimer t acc) []

/-- The release times of N concurrent gated calls to one family, in
release order: immediate releases first (they happen in the arrival
tick), then the timer wake-ups, in firing order. -/
def enforceRateLimitConcurrent (delayMs t0 last0 : Int) (n : Nat) : List Int :=
  let events := rateLimitPrefixes delayMs t0 n last0
  (events.filterMap (fun e => match e with | Sum.inl t => some t | Sum.inr _ => none))
    ++ timerOrder
        (events.filterMap (fun e => match e with | Sum.inl _ => none | Sum.inr t => some t))

/-! ## Shaper request builders

Each shaper operation validates its arguments, builds the family-specific
request parameters from the sanitized arguments and issues them through
the gateway.  Arguments that the JavaScript tests with `if (x)` are
modelled as `Option String` / `Option Rat` with the empty string and zero
mapped back to "absent" by `jsOptStr` / JavaScript-falsy helpers, since
those values are falsy. -/

/-- Collapse a JavaScript-falsy string argument to "absent". -/
def jsOptStr (o : Option String) : Option String :=
  match o with
  | some s => if s = "" then none else some s
  | none => none

/-- Whether a JavaScript value modelled as an optional string is truthy. -/
def jsStrTruthy (o : Option String) : Bool :=
  match o with
  | some s => !(s = "")
  | none => false

/-- Whether a JavaScript value modelled as an optional number is truthy
(zero is falsy). -/
def jsNumTruthy (o : Option Rat) : Bool :=
  match o with
  | some q => !(q = 0)
  | none => false

/-- JavaScript `a || b` for an optional number (zero is falsy). -/
def jsOrNum (a : Option Rat) (b : Rat) : Rat :=
  match a with
  | some q => if q = 0 then b else q
  | none => b

/-- Query parameters built by `samTools.searchEntities`. -/
structure SamEntitySearchParams where
  api_key : String
  includeSections : String
  page : Int
  size : Rat
  ueiSAM : Option String
  entityName : Option String
  stateProvince : Option String
  naicsCode : Option String

/-- `samTools.searchEntities`: `size: Math.min(limit, 50)` plus the
optional filters. -/
def searchEntitiesParams (samApiKey : String)
    (query state naics uei : Option String) (limit : Rat) :
    SamEntitySearchParams :=
  { api_key := samApiKey
    includeSections := "entityRegistration,coreData"
    page := 1
    size := min limit 50
    ueiSAM := jsOptStr uei
    entityName := jsOptStr query
    stateProvince := jsOptStr state
    naicsCode := jsOptStr naics }

/-- Query parameters built by `samTools.getOpportunities`. -/
structure SamOpportunitiesParams where
  api_key : String
  postedFrom : String
  postedTo : String
  limit : Rat
  offset : Int
  title : Option String
  typeOfSetAside : Option String
  state : Option String

/-- `samTools.getOpportunities`: `limit: Math.min(limit, 50), offset: 0`
plus the optional filters. -/
def getOpportunitiesParams (samApiKey posted_from posted_to : String)
    (keyword set_aside state : Option String) (limit : Rat) :
    SamOpportunitiesParams :=
  { api_key := samApiKey
    postedFrom := posted_from
    postedTo := posted_to
    limit := min limit 50
    offset := 0
    title := jsOptStr keyword
    typeOfSetAside := jsOptStr set_aside
    state := jsOptStr state }

/-- Query parameters built by `usaspendingTools.getAgencyAwards`. -/
structure AgencyAwardsParams where
  fiscal_year : Int
  limit : Rat

/-- `usaspendingTools.getAgencyAwards`: `{ fiscal_year, limit: Math.min(limit, 100) }`. -/
def getAgencyAwardsParams (fiscal_year : Int) (limit : Rat) : AgencyAwardsParams :=
  { fiscal_year := fiscal_year, limit := min limit 100 }

/-- One entry of the `time_period` filter. -/
structure TimePeriod where
  start_date : String
  end_date : String

/-- One entry of the `award_amounts` filter. -/
structure AwardAmountRange where
  lower_bound : Rat
  upper_bound : Rat

/-- The POST body built by `usaspendingTools.searchAwardsByRecipient`. -/
structure RecipientSearchRequest where
  recipient_search_text : List String
  time_period : Option TimePeriod
  award_amounts : Option AwardAmountRange
  award_type_codes : Option (List String)
  fields : List String
  sort : String
  order : String
  limit : Rat

/-- `usaspendingTools.searchAwardsByRecipient`: builds the
`spending_by_award` request with `limit: Math.min(limit, 100)`, the
fiscal-year window Oct 1 of `year-1` through Sep 30 of `year` when a
fiscal year is given, and the amount range when either bound is truthy. -/
def searchAwardsByRecipientRequest (recipient_name : String)
    (fiscal_year : Option Int) (min_amount max_amount : Option Rat)
    (award_types : Option (List String)) (limit : Rat) :
    RecipientSearchRequest :=
  { recipient_search_text := [recipient_name]
    time_period :=
      match fiscal_year with
      | some fy => some { start_date := toString (fy - 1) ++ "-10-01",
                          end_date := toString fy ++ "-09-30" }
      | none => none
    award_amounts :=
      if jsNumTruthy min_amount || jsNumTruthy max_amount then
        some { lower_bound := jsOrNum min_amount 0,
               upper_bound := jsOrNum max_amount 999999999999 }
      else none
    award_type_codes := award_types
    fields := ["Award ID", "Recipient Name", "Award Amount", "Awarding Agency",
               "Awarding Sub Agency", "Award Type", "Start Date", "End Date",
               "Description"]
    sort := "Award Amount"
    order := "desc"
    limit := min limit 100 }

/-- Query parameters built by `tangoTools.searchContracts`. -/
structure TangoContractsParams where
  limit : Rat
  search : Option String
  recipient : Option String
  uei : Option String
  awarding_agency : Option String
  naics : Option String
  psc : Option String
  award_date_gte : Option String
  award_date_lte : Option String
  set_aside : Option String

/-- `tangoTools.searchContracts`: `limit: Math.min(limit, 100)` plus the
optional server-side filters (the amount range and the vendor-name
substring are applied client-side after the response). -/
def searchContractsParams (query vendor_name vendor_uei agency naics_code
    psc_code date_from date_to set_aside : Option String) (limit : Rat) :
    TangoContractsParams :=
  { limit := min limit 100
    search := jsOptStr query
    recipient := jsOptStr vendor_name
    uei := jsOptStr vendor_uei
    awarding_agency := jsOptStr agency
    naics := jsOptStr naics_code
    psc := jsOptStr psc_code
    award_date_gte := jsOptStr date_from
    award_date_lte := jsOptStr date_to
    set_aside := jsOptStr set_aside }

/-- Query parameters built by `tangoTools.searchGrants`. -/
structure TangoGrantsParams where
  limit : Rat
  search : Option String
  agency : Option String
  cfda_number : Option String
  posted_date_after : Option String
  posted_date_before : Option String

/-- `tangoTools.searchGrants`: `limit: Math.min(limit, 100)` plus the
optional server-side filters. -/
def searchGrantsParams (query agency cfda_number date_from date_to : Option String)
    (limit : Rat) : TangoGrantsParams :=
  { limit := min limit 100
    search := jsOptStr query
    agency := jsOptStr agency
    cfda_number := jsOptStr cfda_number
    posted_date_after := jsOptStr date_from
    posted_date_before := jsOptStr date_to }

/-- Query parameters built by `tangoTools.searchOpportunities` (the
status-dependent fields are omitted here; they carry no limit). -/
structure TangoOpportunitiesParams where
  limit : Rat
  search : Option String
  agency : Option String
  naics : Option String
  set_aside : Option String
  posted_date_after : Option String
  posted_date_before : Option String
  response_deadline_after : Option String

/-- `tangoTools.searchOpportunities`: `limit: Math.min(limit, 100)` plus
the optional filters. -/
def searchOpportunitiesParams (query agency naics_code set_aside posted_from
    posted_to response_deadline_from : Option String) (limit : Rat) :
    TangoOpportunitiesParams :=
  { limit := min limit 100
    search := jsOptStr query
    agency := jsOptStr agency
    naics := jsOptStr naics_code
    set_aside := jsOptStr set_aside
    posted_date_after := jsOptStr posted_from
    posted_date_before := jsOptStr posted_to
    response_deadline_after := jsOptStr response_deadline_from }

/-! ## Cross-API join engine (`src/tools/join-tools.ts`)

The two join operations are modelled as total functions of the outcomes
of their (at most two) gateway calls, returning the shaped result
together with the trace of gate/request steps actually performed.  The
upstream payloads are modelled by typed views carrying exactly the fields
the join code reads; every possibly-absent field is an `Option`.
Totality of the functions models the enclosing try/catch: no exception
escapes the operation. -/

/-- One entry of `businessTypes.businessTypeList` in the SAM payload. -/
structure BusinessType where
  businessTypeCode : Option String

/-- `entityRegistration.businessTypes` in the SAM payload. -/
structure BusinessTypes where
  businessTypeList : Option (List BusinessType)

/-- `entityRegistration.physicalAddress` in the SAM payload. -/
structure SamPhysicalAddress where
  addressLine1 : Option String
  city : Option String
  stateOrProvinceCode : Option String
  zipCode : Option String

/-- `entityRegistration` in the SAM payload. -/
structure EntityRegistration where
  ueiSAM : Option String
  legalBusinessName : Option String
  duns : Option String
  registrationStatus : Option String
  businessTypes : Option BusinessTypes
  physicalAddress : Option SamPhysicalAddress

/-- `coreData.naicsInformation` in the SAM payload. -/
structure NaicsInformation where
  primaryNaics : Option String

/-- `coreData` in the SAM payload. -/
structure SamCoreData where
  naicsInformation : Option NaicsInformation

/-- One element of `entityData` in the SAM entity payload. -/
structure SamEntityData where
  entityRegistration : Option EntityRegistration
  coreData : Option SamCoreData

/-- The SAM `/entity-information/v4/entities` payload as read by the join. -/
structure SamEntitiesPayload where
  entityData : Option (List SamEntityData)

/-- The nested `address` object of the shaped entity. -/
structure EntityAddress where
  street : Option String
  city : Option String
  state : Option String
  zipCode : Option String

/-- The shaped `entity` object built by `getEntityAndAwards`. -/
structure EntityInfo where
  uei : Option String
  name : Option String
  duns : Option String
  registrationStatus : Option String
  businessTypes : Option (List (Option String))
  primaryNaics : Option String
  address : EntityAddress

/-- The entity extraction of `getEntityAndAwards`, a chain of optional
accesses mirroring the `?.` chains of the source. -/
def extractEntity (e : SamEntityData) : EntityInfo :=
  { uei := e.entityRegistration.bind (fun r => r.ueiSAM)
    name := e.entityRegistration.bind (fun r => r.legalBusinessName)
    duns := e.entityRegistration.bind (fun r => r.duns)
    registrationStatus := e.entityRegistration.bind (fun r => r.registrationStatus)
    businessTypes :=
      ((e.entityRegistration.bind (fun r => r.businessTypes)).bind
        (fun b => b.businessTypeList)).map
          (fun l => l.map (fun bt => bt.businessTypeCode))
    primaryNaics :=
      (e.coreData.bind (fun c => c.naicsInformation)).bind (fun n => n.primaryNaics)
    address :=
      { street :=
          (e.entityRegistration.bind (fun r => r.physicalAddress)).bind
            (fun a => a.addressLine1)
        city :=
          (e.entityRegistration.bind (fun r => r.physicalAddress)).bind
            (fun a => a.city)
        state :=
          (e.entityRegistration.bind (fun r => r.physicalAddress)).bind
            (fun a => a.stateOrProvinceCode)
        zipCode :=
          (e.entityRegistration.bind (fun r => r.physicalAddress)).bind
            (fun a => a.zipCode) } }

/-- `page_metadata` of a `spending_by_award` response. -/
structure PageMetadata where
  total : Option Rat

/-- One row of `results` in a `spending_by_award` response, carrying the
requested fields. -/
structure AwardRow where
  awardId : Option String
  recipientName : Option String
  awardAmount : Option Rat
  awardingAgency : Option String
  awardType : Option String
  startDate : Option String
  endDate : Option String
  description : Option String
deriving DecidableEq

/-- The `spending_by_award` payload as read by the joins. -/
structure SpendingByAwardPayload where
  results : Option (List AwardRow)
  page_metadata : Option PageMetadata

/-- One shaped award of the Entity+Awards join. -/
structure JoinAward where
  id : Option String
  amount : Option Rat
  agency : Option String
  type : Option String
  start_date : Option String
  end_date : Option String
  description : Option String

/-- The `awards` block of the Entity+Awards join result. -/
structure EntityAwardsBlock where
  fiscal_year : Int
  total_amount : Rat
  award_count : Rat
  awards_shown : Nat
  awards : List JoinAward

/-- The result of `getEntityAndAwards`: either the top-level error object
or the combined entity+awards success shape (whose fixed `data_sources`
and `joined_on` strings are omitted). -/
inductive EntityAwardsResult where
  | error (msg : String)
  | joined (entity : EntityInfo) (awards : EntityAwardsBlock)

/-- JavaScript template interpolation of a possibly-undefined string. -/
def jsTemplateStr (o : Option String) : String := o.getD "undefined"

/-- The award mapping of `getEntityAndAwards`. -/
def shapeJoinAward (r : AwardRow) : JoinAward :=
  { id := r.awardId
    amount := r.awardAmount
    agency := r.awardingAgency
    type := r.awardType
    start_date := r.startDate
    end_date := r.endDate
    description := r.description }

/-- `joinTools.getEntityAndAwards` after validation (API key and UEI
present), as a function of the fiscal year and award limit (defaults
2024 and 10 applied by the caller-side destructuring) and of the
outcomes of the two gateway calls.  Step 2 posts the
`spending_by_award` request built from the entity's legal business name
and the fiscal-year window; step 2 is reached whenever step 1 found an
entity, and its failure leaves the `awards`/`totalAmount`/`awardCount`
defaults `[]`/`0`/`0` in place. -/
def getEntityAndAwards (fiscal_year award_limit : Int)
    (samO : Outcome SamEntitiesPayload) (usaO : Outcome SpendingByAwardPayload) :
    EntityAwardsResult × List CallStep :=
  let samCall := samGet "/entity-information/v4/entities" samO
  if samCall.resp.success then
    match (samCall.resp.data.bind (fun p => p.entityData)).bind List.head? with
    | none => (.error "Entity not found in SAM.gov", samCall.trace)
    | some entityData =>
      let entity := extractEntity entityData
      let usaCall := usaspendingPost "/search/spending_by_award/" usaO
      let shaped :=
        if usaCall.resp.success then
          match usaCall.resp.data.bind (fun p => p.results) with
          | some rows =>
            let awards := rows.map shapeJoinAward
            (awards,
             awards.foldl (fun sum a => sum + jsOrNum a.amount 0) 0,
             jsOrNum ((usaCall.resp.data.bind (fun p => p.page_metadata)).bind
               (fun m => m.total)) awards.length)
          | none => (([] : List JoinAward), (0 : Rat), (0 : Rat))
        else (([] : List JoinAward), (0 : Rat), (0 : Rat))
      (.joined entity
        { fiscal_year := fiscal_year
          total_amount := shaped.2.1
          award_count := shaped.2.2
          awards_shown := shaped.1.length
          awards := shaped.1 },
       samCall.trace ++ usaCall.trace)
  else
    (.error ("SAM.gov error: " ++ jsTemplateStr samCall.resp.error), samCall.trace)

/-- One element of `opportunitiesData` in the SAM opportunity-search
payload, carrying the fields the join reads. -/
structure OpportunityRow where
  noticeId : Option String
  title : Option String
  solicitationNumber : Option String
  department : Option String
  office : Option String
  postedDate : Option String
  responseDeadLine : Option String
  naicsCode : Option String
  typeOfSetAsideDescription : Option String
  type : Option String

/-- The SAM `/opportunities/v2/search` payload as read by the join. -/
structure OpportunitiesPayload where
  opportunitiesData : Option (List OpportunityRow)

/-- The `find` predicate of `getOpportunitySpendingContext`:
`(opportunity_id && opp.noticeId === opportunity_id) ||
(solicitation_number && opp.solicitationNumber === solicitation_number)`. -/
def matchesOpportunity (opportunity_id solicitation_number : Option String)
    (opp : OpportunityRow) : Bool :=
  (jsStrTruthy opportunity_id && opp.noticeId == opportunity_id)
  || (jsStrTruthy solicitation_number
      && opp.solicitationNumber == solicitation_number)

/-- The shaped `opportunity` object of the join. -/
structure OppDetails where
  id : Option String
  title : Option String
  solicitationNumber : Option String
  department : Option String
  office : Option String
  postedDate : Option String
  responseDeadLine : Option String
  naicsCode : Option String
  setAside : Option String
  type : Option String

/-- The opportunity extraction of `getOpportunitySpendingContext`. -/
def extractOppDetails (opp : OpportunityRow) : OppDetails :=
  { id := opp.noticeId
    title := opp.title
    solicitationNumber := opp.solicitationNumber
    department := opp.department
    office := opp.office
    postedDate := opp.postedDate
    responseDeadLine := opp.responseDeadLine
    naicsCode := opp.naicsCode
    setAside := opp.typeOfSetAsideDescription
    type := opp.type }

/-- One entry of `similar_awards` in the spending context. -/
structure SimilarAward where
  recipient : Option String
  amount : Option Rat
  agency : Option String
  type : Option String

/-- The `spending_context` block of the join result. -/
structure SpendingContext where
  naics_code : Option String
  similar_awards : List SimilarAward
  average_award_amount : Rat
  total_spending : Rat
  award_count : Rat

/-- The spending context initialised before the NAICS query (all
aggregates zero, no sample). -/
def defaultSpendingContext (naicsCode : Option String) : SpendingContext :=
  { naics_code := naicsCode
    similar_awards := []
    average_award_amount := 0
    total_spending := 0
    award_count := 0 }

/-- The spending-context computation of `getOpportunitySpendingContext`
on a successful `spending_by_award` response: the strictly positive
values of `award["Award Amount"] || 0` drive both aggregates, the first
ten rows become the sample, and the count falls back from
`page_metadata?.total` to the row count. -/
def computeSpendingContext (naicsCode : Option String) (rows : List AwardRow)
    (pageTotal : Option Rat) : SpendingContext :=
  let amounts := (rows.map (fun r => jsOrNum r.awardAmount 0)).filter
    (fun amt => decide (0 < amt))
  { naics_code := naicsCode
    similar_awards := (rows.take 10).map (fun r =>
      { recipient := r.recipientName
        amount := r.awardAmount
        agency := r.awardingAgency
        type := r.awardType })
    average_award_amount :=
      if 0 < amounts.length then amounts.foldl (fun a b => a + b) 0 / (amounts.length : Rat)
      else 0
    total_spending := amounts.foldl (fun a b => a + b) 0
    award_count := jsOrNum pageTotal (rows.length : Rat) }

/-- The `typical_award_range` object of the market analysis. -/
structure TypicalAwardRange where
  average : Rat
  suggestion : String

/-- The `market_analysis` block of the join result. -/
structure MarketAnalysis where
  similar_work_volume : Rat
  typical_award_range : Option TypicalAwardRange

/-- The market analysis of `getOpportunitySpendingContext`: the ordinal
small/medium/large classification of the computed average. -/
def marketAnalysisOf (ctx : SpendingContext) : MarketAnalysis :=
  { similar_work_volume := ctx.award_count
    typical_award_range :=
      if 0 < ctx.average_award_amount then
        some { average := ctx.average_award_amount
               suggestion :=
                 if ctx.average_award_amount < 100000 then "Small contract opportunity"
                 else if ctx.average_award_amount < 1000000 then "Medium contract opportunity"
                 else "Large contract opportunity" }
      else none }

/-- The result of `getOpportunitySpendingContext`: the top-level error
object, the not-found shape with its guidance, or the combined success
shape (fixed `data_sources` / `joined_on` strings omitted). -/
inductive OppContextResult where
  | error (msg : String)
  | notFound (msg suggestion : String)
  | joined (opportunity : OppDetails) (ctx : SpendingContext)
      (market : MarketAnalysis) (fiscal_year : Int)

/-- `joinTools.getOpportunitySpendingContext` after validation (API key
present and at least one identifier given), as a function of the two
identifiers, the fiscal year (default 2024) and the outcomes of the two
gateway calls.  Step 1 scans the fixed 30-day window of
`/opportunities/v2/search` results for the identifier; the NAICS query
is issued only when the found opportunity has a truthy NAICS code, and
its failure leaves the default zero context in place. -/
def getOpportunitySpendingContext (opportunity_id solicitation_number : Option String)
    (fiscal_year : Int) (samO : Outcome OpportunitiesPayload)
    (usaO : Outcome SpendingByAwardPayload) :
    OppContextResult × List CallStep :=
  let samCall := samGet "/opportunities/v2/search" samO
  if samCall.resp.success then
    match (samCall.resp.data.bind (fun p => p.opportunitiesData)).bind
        (fun l => l.find? (matchesOpportunity opportunity_id solicitation_number)) with
    | none =>
      (.notFound
        "Opportunity not found. It may be older than 30 days or the ID/solicitation number is incorrect."
        "Try using search_sam_opportunities with a broader date range first",
       samCall.trace)
    | some opp =>
      let oppDetails := extractOppDetails opp
      if jsStrTruthy opp.naicsCode then
        let usaCall := usaspendingPost "/search/spending_by_award/" usaO
        let ctx :=
          if usaCall.resp.success then
            match usaCall.resp.data.bind (fun p => p.results) with
            | some rows =>
              computeSpendingContext opp.naicsCode rows
                ((usaCall.resp.data.bind (fun p => p.page_metadata)).bind
                  (fun m => m.total))
            | none => defaultSpendingContext opp.naicsCode
          else defaultSpendingContext opp.naicsCode
        (.joined oppDetails ctx (marketAnalysisOf ctx) fiscal_year,
         samCall.trace ++ usaCall.trace)
      else
        (.joined oppDetails (defaultSpendingContext opp.naicsCode)
          (marketAnalysisOf (defaultSpendingContext opp.naicsCode)) fiscal_year,
         samCall.trace)
  else
    (.error ("SAM.gov error: " ++ jsTemplateStr samCall.resp.error), samCall.trace)

/-! ## Tango spending summary (`tangoTools.getSpendingSummary`)

The grouping pipeline applied to a fetched page of raw contract records:
normalize each record, bucket by the selected dimension with an
insertion-ordered upsert (the JavaScript `Map`), sort buckets by
descending total and rank them 1-based, rounding each reported total to
two decimals (`toFixed(2)`).  Record fields are typed views of the JSON
fields the code reads; `Number(...)`/`Number.isFinite` on the already
numeric-or-absent amount chain is the identity with default `0`.
JavaScript `Date` parsing is modelled for ISO `YYYY-MM-DD` date (and
`T`-suffixed date-time) strings; every other string is an invalid date. -/

/-- JavaScript `a || b` for two optional strings (empty string falsy). -/
def jsOrOpt (a b : Option String) : Option String :=
  match a with
  | some s => if s = "" then b else some s
  | none => b

/-- `awarding_office` of a raw Tango contract. -/
structure AwardingOffice where
  agency_name : Option String
  agency_code : Option String

/-- `recipient` of a raw Tango contract. -/
structure TangoRecipient where
  display_name : Option String
  uei : Option String

/-- A raw contract record of the Tango `/contracts/` page, carrying the
fields `getSpendingSummary` reads. -/
structure TangoContract where
  key : Option String
  piid : Option String
  contract_id : Option String
  obligated : Option Rat
  total_contract_value : Option Rat
  base_and_exercised_options_value : Option Rat
  award_date : Option String
  date_signed : Option String
  awarding_office : Option AwardingOffice
  agency_name : Option String
  agency_code : Option String
  recipient : Option TangoRecipient
  vendor_name : Option String
  vendor_uei : Option String
  naics_code : Option String
  naics : Option String
  psc_code : Option String
  psc : Option String

/-- The normalized record of `getSpendingSummary`. -/
structure NormalizedContract where
  key : Option String
  obligated : Rat
  awardDate : Option String
  awardingAgencyName : Option String
  awardingAgencyCode : Option String
  recipientName : Option String
  recipientUei : Option String
  naics : Option String
  psc : Option String

/-- The normalization step: nullish-coalesce the amount chain (defaulting
a missing amount to `0`), truthy-coalesce the identifier and label
chains. -/
def normalizeContract (c : TangoContract) : NormalizedContract :=
  { key := jsOrOpt c.key (jsOrOpt c.piid c.contract_id)
    obligated :=
      ((c.obligated <|> c.total_contract_value) <|>
        c.base_and_exercised_options_value).getD 0
    awardDate := jsOrOpt c.award_date c.date_signed
    awardingAgencyName :=
      jsOrOpt (c.awarding_office.bind (fun o => o.agency_name)) c.agency_name
    awardingAgencyCode :=
      jsOrOpt (c.awarding_office.bind (fun o => o.agency_code)) c.agency_code
    recipientName := jsOrOpt (c.recipient.bind (fun r => r.display_name)) c.vendor_name
    recipientUei := jsOrOpt (c.recipient.bind (fun r => r.uei)) c.vendor_uei
    naics := jsOrOpt c.naics_code c.naics
    psc := jsOrOpt c.psc_code c.psc }

/-- `safeLabel`: `value?.trim() || fallback`. -/
def safeLabel (value : Option String) (fallback : String) : String :=
  match value with
  | some s => let t := String.mk (jsTrim s.data); if t = "" then fallback else t
  | none => fallback

/-- A decimal digit, by code point. -/
def charDigit (c : Char) : Option Nat :=
  if 48 ≤ c.toNat ∧ c.toNat ≤ 57 then some (c.toNat - 48) else none

/-- The year and month of an ISO `YYYY-MM-DD` prefix with a plausible
month and day. -/
def isoYearMonth (y1 y2 y3 y4 h1 m1 m2 h2 d1 d2 : Char) : Option (Nat × Nat) :=
  match charDigit y1, charDigit y2, charDigit y3, charDigit y4,
      charDigit m1, charDigit m2, charDigit d1, charDigit d2 with
  | some a, some b, some c, some d, some e, some f, some g, some h =>
    if h1.toNat = 45 ∧ h2.toNat = 45 then
      let month := e * 10 + f
      let day := g * 10 + h
      if 1 ≤ month ∧ month ≤ 12 ∧ 1 ≤ day ∧ day ≤ 31 then
        some (((a * 10 + b) * 10 + c) * 10 + d, month)
      else none
    else none
  | _, _, _, _, _, _, _, _ => none

/-- `new Date(input)` followed by `getUTCFullYear`/`getUTCMonth`, for the
ISO date strings the model supports; `none` is an invalid date. -/
def parseIsoYearMonth (s : String) : Option (Nat × Nat) :=
  match s.data with
  | [y1, y2, y3, y4, h1, m1, m2, h2, d1, d2] =>
    isoYearMonth y1 y2 y3 y4 h1 m1 m2 h2 d1 d2
  | y1 :: y2 :: y3 :: y4 :: h1 :: m1 :: m2 :: h2 :: d1 :: d2 :: c :: _ =>
    if c.toNat = 84 then isoYearMonth y1 y2 y3 y4 h1 m1 m2 h2 d1 d2 else none
  | _ => none

/-- `formatMonth`: the UTC `YYYY-MM` bucket of an award date, `"Unknown"`
for a missing or unparseable date. -/
def formatMonth (input : Option String) : String :=
  match input with
  | none => "Unknown"
  | some s =>
    match parseIsoYearMonth s with
    | none => "Unknown"
    | some (y, m) =>
      toString y ++ "-" ++ (if m < 10 then "0" ++ toString m else toString m)

/-- One accumulated bucket (an entry of the JavaScript `Map`). -/
structure SpendingGroup where
  key : String
  label : String
  totalObligated : Rat
  contractCount : Nat

/-- `upsertGroup`: accumulate an amount into the bucket with the given
key, creating it at the end (insertion order) if absent; the label is
fixed at creation. -/
def upsertGroup : List SpendingGroup → String → String → Rat → List SpendingGroup
  | [], key, label, amount =>
    [{ key := key, label := label, totalObligated := amount, contractCount := 1 }]
  | g :: gs, key, label, amount =>
    if g.key = key then
      { g with totalObligated := g.totalObligated + amount,
               contractCount := g.contractCount + 1 } :: gs
    else g :: upsertGroup gs key label amount

/-- The `agency` grouping key and label, with the `"UNK"` sentinel for a
missing agency code. -/
def agencyKeyLabel (c : NormalizedContract) : String × String :=
  let code := safeLabel c.awardingAgencyCode "UNK"
  let name := safeLabel c.awardingAgencyName "Unknown agency"
  (code,
   if !(code = "") && !(code = "UNK") then name ++ " (" ++ code ++ ")" else name)

/-- The `vendor` grouping key and label, with the `"UNKNOWN"` sentinel
for a missing recipient UEI. -/
def vendorKeyLabel (c : NormalizedContract) : String × String :=
  let ueiValue := safeLabel c.recipientUei "UNKNOWN"
  let name := safeLabel c.recipientName "Unknown recipient"
  (if !(ueiValue = "") then ueiValue else name,
   if !(ueiValue = "") && !(ueiValue = "UNKNOWN") then
     name ++ " (" ++ ueiValue ++ ")"
   else name)

/-- The grouping key and label of one normalized record for each of the
five recognized dimensions. -/
def groupKeyLabel (group_by : String) (c : NormalizedContract) : String × String :=
  match group_by with
  | "agency" => agencyKeyLabel c
  | "vendor" => vendorKeyLabel c
  | "naics" =>
    let code := safeLabel c.naics "Unspecified NAICS"
    (code, code)
  | "psc" =>
    let code := safeLabel c.psc "Unspecified PSC"
    (code, code)
  | "month" =>
    let m := formatMonth c.awardDate
    (m, m)
  | _ => ("overall", "Overall total")

/-- The bucket accumulation of `getSpendingSummary`: one upsert per
record for the five recognized dimensions, a single overall bucket
carrying the precomputed total otherwise. -/
def spendingGroups (group_by : String) (ns : List NormalizedContract)
    (totalObligated : Rat) : List SpendingGroup :=
  if group_by = "agency" || group_by = "vendor" || group_by = "naics" ||
      group_by = "psc" || group_by = "month" then
    ns.foldl (fun gs c =>
      let kl := groupKeyLabel group_by c
      upsertGroup gs kl.1 kl.2 c.obligated) []
  else upsertGroup [] "overall" "Overall total" totalObligated

/-- `Number(x.toFixed(2))`: round to two decimal places. -/
def round2 (q : Rat) : Rat := ((round (q * 100) : Int) : Rat) / 100

/-- One entry of the reported `breakdown`. -/
structure BreakdownEntry where
  rank : Nat
  key : String
  label : String
  total_obligated : Rat
  contract_count : Nat

/-- The descending comparison `(a, b) => b.totalObligated - a.totalObligated`
as the sort's ordering predicate. -/
def groupDescLe (a b : SpendingGroup) : Bool :=
  decide (b.totalObligated ≤ a.totalObligated)

/-- Sort the buckets by descending total and rank them 1-based, rounding
each reported total. -/
def spendingBreakdown (gs : List SpendingGroup) : List BreakdownEntry :=
  ((gs.mergeSort groupDescLe).enum).map (fun p =>
    { rank := p.1 + 1
      key := p.2.key
      label := p.2.label
      total_obligated := round2 p.2.totalObligated
      contract_count := p.2.contractCount })

/-- The reported summary (the echoed filters and page info are omitted). -/
structure SpendingSummary where
  total_contracts : Nat
  total_obligated : Rat
  breakdown : List BreakdownEntry
  group_by : String

/-- `tangoTools.getSpendingSummary` on a successfully fetched page of
contracts: normalize, total, bucket, sort, rank. -/
def getSpendingSummary (group_by : String) (contracts : List TangoContract) :
    SpendingSummary :=
  let normalized := contracts.map normalizeContract
  let totalObligated := normalized.foldl (fun sum c => sum + c.obligated) 0
  let groups := spendingGroups group_by normalized totalObligated
  { total_contracts := normalized.length
    total_obligated := round2 totalObligated
    breakdown := spendingBreakdown groups
    group_by := group_by }

/-! ## Claim theorems -/

/-- Claim C2 (code bug): five concurrent gated calls to the 100 ms (SAM)
family, arriving at t = 1000 ms with the family's last-call timestamp at
1000 ms, are all released together at t = 1100 ms: successive releases
are 0 ms apart rather than at least 100 ms apart, and the fifth release
happens 100 ms — not at least 400 ms — after the first.  The claimed
FIFO chaining with serially compounding delays does not hold because a
waiting caller computes its delay against the stale last-call timestamp
and never updates it before sleeping. -/
theorem enforceRateLimit_shared_delay_bug :
    enforceRateLimitConcurrent 100 1000 1000 5 = [1100, 1100, 1100, 1100, 1100] ∧
    (enforceRateLimitConcurrent 100 1000 1000 5).head? = some 1100 ∧
    (enforceRateLimitConcurrent 100 1000 1000 5).getLast? = some 1100 ∧
    enforceRateLimitConcurrent 100 1000 0 3 = [1000, 1100, 1100] := by
  refine ⟨by decide, by decide, by decide, by decide⟩

/-- Claim C3: every modelled gateway entry point gates its family before
the single HTTP step, with the family's fixed compile-time interval:
100 ms for the SAM family, 3600 ms for the USASpending family and (per
the spec, the implementation of `tangoGet` being absent from the
sources) 100 ms for the Tango family. -/
theorem gateway_rate_limit_constants {T : Type} (endpoint : String) (o : Outcome T) :
    (samGet endpoint o).trace = [.gate .sam SAM_DELAY_MS, .httpGet .sam endpoint] ∧
    (usaspendingGet endpoint o).trace
      = [.gate .usaspending USASPENDING_DELAY_MS, .httpGet .usaspending endpoint] ∧
    (usaspendingPost endpoint o).trace
      = [.gate .usaspending USASPENDING_DELAY_MS, .httpPost .usaspending endpoint] ∧
    (tangoGet endpoint o).trace = [.gate .tango TANGO_DELAY_MS, .httpGet .tango endpoint] ∧
    SAM_DELAY_MS = 100 ∧ USASPENDING_DELAY_MS = 3600 ∧ TANGO_DELAY_MS = 100 :=
  ⟨rfl, rfl, rfl, rfl, rfl, rfl, rfl⟩

/-- Claim C5: the sanitizer is idempotent on every JSON value, and on
strings it never lengthens its input. -/
theorem sanitizeInput_idempotent_and_contracting :
    (∀ v : JValue, sanitizeInput (sanitizeInput v) = sanitizeInput v) ∧
    (∀ s : String, sanitizeInput (.str s) = .str (sanitizeString s) ∧
      (sanitizeString s).length ≤ s.length) :=
  ⟨sanitizeInput_idem, fun s => ⟨rfl, sanitizeString_length_le s⟩⟩

/-- The failure classification a gateway response must satisfy: a failed
response carries `data = none` and the class-specific error message of
its outcome. -/
def errorClassified {T : Type} (o : Outcome T) (r : ApiResponse T) : Prop :=
  r.success = false →
    r.data = none ∧
    ((∃ status body message, o = .httpError status body message ∧
        r.error = some ("API Error " ++ toString status ++ ": "
          ++ jsonQuote (jsOrString body message))) ∨
     (o = .noResponse ∧
        r.error = some "Network error: No response received from API") ∨
     (∃ message, o = .requestError message ∧
        r.error = some ("Request error: " ++ message)))

/-- Claim C6: each gateway call is a total function of its outcome (the
model of "never propagates an exception"); it succeeds exactly when a
2xx response arrived, and on failure `data` is `none` with the error
string of the matching failure class — HTTP status plus serialized body,
the network-failure message, or the request-error message. -/
theorem gateway_failure_classes {T : Type} (endpoint : String) (o : Outcome T) :
    errorClassified o (samGet endpoint o).resp ∧
    errorClassified o (usaspendingGet endpoint o).resp ∧
    errorClassified o (usaspendingPost endpoint o).resp ∧
    ((samGet endpoint o).resp.success = true ↔ ∃ d, o = .ok d) := by
  refine ⟨?_, ?_, ?_, ?_⟩ <;>
    cases o <;>
      simp [errorClassified, samGet, usaspendingGet, usaspendingPost, handleError] <;>
        exact ⟨_, _, _, ⟨rfl, rfl, rfl⟩, rfl⟩

/-- Witness for C6: at the concrete no-response outcome, the SAM gateway
call reports a failure with null data and the network-failure message. -/
theorem gateway_failure_classes_witness :
    (samGet "/entity-information/v4/entities"
        (Outcome.noResponse : Outcome Unit)).resp.data = none ∧
    (samGet "/entity-information/v4/entities"
        (Outcome.noResponse : Outcome Unit)).resp.error
      = some "Network error: No response received from API" := by
  have h := (gateway_failure_classes "/entity-information/v4/entities"
    (Outcome.noResponse : Outcome Unit)).1 rfl
  refine ⟨h.1, ?_⟩
  rcases h.2 with ⟨_, _, _, hcase, _⟩ | ⟨_, herr⟩ | ⟨_, hcase, _⟩
  · exact absurd hcase (by simp)
  · exact herr
  · exact absurd hcase (by simp)

/-- Claim C7: every shaper operation that accepts a page-size/limit
argument forwards `min(L, max)` upstream — max 50 for the two SAM
operations, max 100 for the USASpending and Tango operations — and in
particular a requested limit of 500 reaches a max-100 shaper's upstream
parameter as exactly 100 (and a max-50 shaper's as exactly 50). -/
theorem shaper_limit_clamped :
    (∀ apiKey query state naics uei (L : Rat),
      (searchEntitiesParams apiKey query state naics uei L).size = min L 50) ∧
    (∀ apiKey pf pt keyword set_aside state (L : Rat),
      (getOpportunitiesParams apiKey pf pt keyword set_aside state L).limit = min L 50) ∧
    (∀ (fy : Int) (L : Rat), (getAgencyAwardsParams fy L).limit = min L 100) ∧
    (∀ rn fy ma mb at' (L : Rat),
      (searchAwardsByRecipientRequest rn fy ma mb at' L).limit = min L 100) ∧
    (∀ q vn vu ag nc pc df dt sa (L : Rat),
      (searchContractsParams q vn vu ag nc pc df dt sa L).limit = min L 100) ∧
    (∀ q ag cn df dt (L : Rat),
      (searchGrantsParams q ag cn df dt L).limit = min L 100) ∧
    (∀ q ag nc sa pf pt rd (L : Rat),
      (searchOpportunitiesParams q ag nc sa pf pt rd L).limit = min L 100) ∧
    (searchContractsParams none none none none none none none none none 500).limit
      = 100 ∧
    (searchEntitiesParams "key" none none none none 500).size = 50 := by
  refine ⟨fun _ _ _ _ _ _ => rfl, fun _ _ _ _ _ _ _ => rfl, fun _ _ => rfl,
    fun _ _ _ _ _ _ => rfl, fun _ _ _ _ _ _ _ _ _ _ => rfl,
    fun _ _ _ _ _ _ => rfl, fun _ _ _ _ _ _ _ _ => rfl, ?_, ?_⟩
  · show min (500 : Rat) 100 = 100
    norm_num
  · show min (500 : Rat) 50 = 50
    norm_num

/-- Claim C8: when the entity-lookup stage of the Entity+Awards join
succeeds but finds no entity for the given UEI, the join returns the
not-found error result (no exception: the model is a total function),
its trace is exactly the one SAM gate-and-request pair, and in
particular no step of the spending family is ever issued. -/
theorem entity_join_fail_fast (fy lim : Int) (payload : SamEntitiesPayload)
    (usaO : Outcome SpendingByAwardPayload)
    (h : payload.entityData.bind List.head? = none) :
    (getEntityAndAwards fy lim (.ok payload) usaO).1
      = .error "Entity not found in SAM.gov" ∧
    (getEntityAndAwards fy lim (.ok payload) usaO).2
      = [.gate .sam SAM_DELAY_MS, .httpGet .sam "/entity-information/v4/entities"] ∧
    ∀ step ∈ (getEntityAndAwards fy lim (.ok payload) usaO).2,
      step.family ≠ .usaspending := by
  have hrw : getEntityAndAwards fy lim (.ok payload) usaO
      = (.error "Entity not found in SAM.gov",
         [.gate .sam SAM_DELAY_MS, .httpGet .sam "/entity-information/v4/entities"]) := by
    unfold getEntityAndAwards
    simp [samGet, h]
  rw [hrw]
  refine ⟨rfl, rfl, ?_⟩
  intro step hstep
  simp only [List.mem_cons, List.not_mem_nil, or_false] at hstep
  rcases hstep with rfl | rfl
  · simp [CallStep.family]
  · simp [CallStep.family]

/-- Witness for C8: a successful entity payload with an empty
`entityData` list yields the not-found result with no spending-family
step, for fiscal year 2024 and limit 10. -/
theorem entity_join_fail_fast_witness :
    (getEntityAndAwards 2024 10 (.ok ⟨some []⟩) .noResponse).1
      = .error "Entity not found in SAM.gov" ∧
    (getEntityAndAwards 2024 10 (.ok ⟨some []⟩) .noResponse).2
      = [.gate .sam SAM_DELAY_MS, .httpGet .sam "/entity-information/v4/entities"] ∧
    ∀ step ∈ (getEntityAndAwards 2024 10 (.ok ⟨some []⟩) .noResponse).2,
      step.family ≠ .usaspending :=
  entity_join_fail_fast 2024 10 ⟨some []⟩ .noResponse rfl

/-- If dropping a prefix changes nothing, the head does not satisfy the
predicate. -/
theorem dropWhile_fixed_head (p : α → Bool) (X : List α) (c : α)
    (hfix : X.dropWhile p = X) (hh : X.head? = some c) : p c = false := by
  cases X with
  | nil => simp at hh
  | cons a t =>
    have hac : a = c := by simpa using hh
    subst hac
    by_cases hpa : p a
    · rw [List.dropWhile_cons, if_pos hpa] at hfix
      have hlen := congrArg List.length hfix
      have : (t.dropWhile p).length ≤ t.length := (List.dropWhile_sublist p).length_le
      simp at hlen
      omega
    · simpa using hpa

/-- The cleaned string starts with a non-whitespace character (if any). -/
theorem sanitizeString_head_not_ws (s : String) (c : Char)
    (h : (sanitizeString s).data.head? = some c) : isJsWhitespace c = false := by
  have hfix := jsTrimLeft_jsTrimRight_jsTrimLeft
    (s.data.filter (fun c => !(isSanitizerStripped c)))
  exact dropWhile_fixed_head isJsWhitespace _ c hfix h

/-- The cleaned string ends with a non-whitespace character (if any). -/
theorem sanitizeString_last_not_ws (s : String) (c : Char)
    (h : (sanitizeString s).data.getLast? = some c) : isJsWhitespace c = false := by
  have : (sanitizeString s).data.getLast?
      = ((jsTrimLeft (s.data.filter (fun c => !(isSanitizerStripped c)))).reverse.dropWhile
          isJsWhitespace).head? := by
    show (jsTrimRight (jsTrimLeft (s.data.filter (fun c => !(isSanitizerStripped c))))).getLast?
        = _
    rw [jsTrimRight, List.getLast?_reverse]
  rw [this] at h
  exact dropWhile_head_not _ _ _ h

/-- Counterexample to claim C4: the sanitizer does not strip control
characters — the BEL character (code 7) inside a string survives
sanitization unchanged. -/
theorem sanitizeInput_keeps_control_char :
    sanitizeInput (.str "a\x07b") = .str "a\x07b" ∧
    ("a\x07b" : String).data.any isControlChar = true := by
  constructor
  · show JValue.str (sanitizeString "a\x07b") = JValue.str "a\x07b"
    congr 1
  · decide

/-- Claim C4 as amended: applied recursively to strings, arrays and
objects, the sanitizer removes from each string every occurrence of the
five characters of its regex class (angle brackets, quotes, ampersand)
and trims surrounding whitespace — the output has none of those five
characters, is a subsequence of the input, and neither starts nor ends
with whitespace — while control characters in the interior survive and
non-string scalars pass through unchanged. -/
theorem sanitizeInput_amended :
    (∀ s : String,
      sanitizeInput (.str s) = .str (sanitizeString s) ∧
      (∀ c ∈ (sanitizeString s).data, isSanitizerStripped c = false) ∧
      (sanitizeString s).data.Sublist s.data ∧
      (∀ c, (sanitizeString s).data.head? = some c → isJsWhitespace c = false) ∧
      (∀ c, (sanitizeString s).data.getLast? = some c → isJsWhitespace c = false)) ∧
    (∀ q, sanitizeInput (.num q) = .num q) ∧
    (∀ b, sanitizeInput (.bool b) = .bool b) ∧
    sanitizeInput .null = .null ∧
    (∀ xs, sanitizeInput (.arr xs) = .arr (sanitizeArr xs)) ∧
    (∀ kvs, sanitizeInput (.obj kvs) = .obj (sanitizeObj kvs)) := by
  refine ⟨fun s => ⟨rfl, ?_, ?_, sanitizeString_head_not_ws s, sanitizeString_last_not_ws s⟩,
    fun _ => rfl, fun _ => rfl, rfl, fun _ => rfl, fun _ => rfl⟩
  · intro c hc
    have : c ∈ s.data.filter (fun c => !(isSanitizerStripped c)) :=
      (jsTrim_sublist _).mem hc
    simpa using (List.mem_filter.mp this).2
  · exact (jsTrim_sublist _).trans (List.filter_sublist _)

/-- Witness for the amended C4: on the string `" <a> "` the sanitizer
yields `"a"` (brackets removed, whitespace trimmed), whose single
character is neither stripped nor whitespace, and the number 7 passes
through unchanged. -/
theorem sanitizeInput_amended_witness :
    isSanitizerStripped (Char.ofNat 97) = false ∧
    isJsWhitespace (Char.ofNat 97) = false ∧
    sanitizeInput (.num 7) = .num 7 := by
  refine ⟨?_, ?_, sanitizeInput_amended.2.1 7⟩
  · exact (sanitizeInput_amended.1 " <a> ").2.1 (Char.ofNat 97) (by decide)
  · exact (sanitizeInput_amended.1 " <a> ").2.2.2.1 (Char.ofNat 97) (by decide)

/-- A concrete SAM entity payload: one registered entity named
`ACME CORP`. -/
def samPayloadAcme : SamEntitiesPayload :=
  ⟨some [⟨some ⟨some "UEI123", some "ACME CORP", none, none, none, none⟩, none⟩]⟩

/-- Counterexample to claim C1: with a successful entity lookup and a
failed (network-error) spending-family call, `getEntityAndAwards`
returns the combined success shape carrying the step-1 entity and an
empty award list with zero aggregates — not a top-level error object —
even though the step-2 gateway call reports `success = false`. -/
theorem getEntityAndAwards_success_shape_on_spending_failure :
    (getEntityAndAwards 2024 10 (.ok samPayloadAcme) .noResponse).1
      = .joined
          (extractEntity ⟨some ⟨some "UEI123", some "ACME CORP", none, none, none, none⟩, none⟩)
          { fiscal_year := 2024, total_amount := 0, award_count := 0,
            awards_shown := 0, awards := [] } ∧
    (usaspendingPost "/search/spending_by_award/"
        (Outcome.noResponse : Outcome SpendingByAwardPayload)).resp.success = false :=
  ⟨rfl, rfl⟩

/-- Claim C1 as amended: a stage-1 (registry-family) gateway failure
aborts either join with a top-level error result, but a stage-2
(spending-family) gateway failure does not abort — `getEntityAndAwards`
returns the combined success shape with the step-1 entity and empty
awards and zero aggregates, and `getOpportunitySpendingContext` returns
the combined success shape with the step-1 opportunity and the default
zero spending context. -/
theorem join_failure_semantics_amended :
    (∀ (fy lim : Int) (samO : Outcome SamEntitiesPayload)
        (usaO : Outcome SpendingByAwardPayload),
      (samGet "/entity-information/v4/entities" samO).resp.success = false →
      (getEntityAndAwards fy lim samO usaO).1
        = .error ("SAM.gov error: "
            ++ jsTemplateStr (samGet "/entity-information/v4/entities" samO).resp.error)) ∧
    (∀ (fy lim : Int) (payload : SamEntitiesPayload) (ed : SamEntityData)
        (usaO : Outcome SpendingByAwardPayload),
      payload.entityData.bind List.head? = some ed →
      (usaspendingPost "/search/spending_by_award/" usaO).resp.success = false →
      (getEntityAndAwards fy lim (.ok payload) usaO).1
        = .joined (extractEntity ed)
            { fiscal_year := fy, total_amount := 0, award_count := 0,
              awards_shown := 0, awards := [] }) ∧
    (∀ (oid sol : Option String) (fy : Int) (samO : Outcome OpportunitiesPayload)
        (usaO : Outcome SpendingByAwardPayload),
      (samGet "/opportunities/v2/search" samO).resp.success = false →
      (getOpportunitySpendingContext oid sol fy samO usaO).1
        = .error ("SAM.gov error: "
            ++ jsTemplateStr (samGet "/opportunities/v2/search" samO).resp.error)) ∧
    (∀ (oid sol : Option String) (fy : Int) (payload : OpportunitiesPayload)
        (opp : OpportunityRow) (usaO : Outcome SpendingByAwardPayload),
      payload.opportunitiesData.bind
          (fun l => l.find? (matchesOpportunity oid sol)) = some opp →
      jsStrTruthy opp.naicsCode = true →
      (usaspendingPost "/search/spending_by_award/" usaO).resp.success = false →
      (getOpportunitySpendingContext oid sol fy (.ok payload) usaO).1
        = .joined (extractOppDetails opp) (defaultSpendingContext opp.naicsCode)
            (marketAnalysisOf (defaultSpendingContext opp.naicsCode)) fy) := by
  refine ⟨?_, ?_, ?_, ?_⟩
  · intro fy lim samO usaO hfail
    unfold getEntityAndAwards
    simp [hfail]
  · intro fy lim payload ed usaO hfound hfail
    unfold getEntityAndAwards
    simp [samGet, hfound, hfail]
  · intro oid sol fy samO usaO hfail
    unfold getOpportunitySpendingContext
    simp [hfail]
  · intro oid sol fy payload opp usaO hfound hnaics hfail
    unfold getOpportunitySpendingContext
    simp [samGet, hfound, hnaics, hfail]

/-- Witness for the amended C1: concrete instances of all four branches —
a failed entity lookup yields the error shape; a found entity with a
failed spending call yields the joined shape with zero aggregates; and
likewise for the opportunity join. -/
theorem join_failure_semantics_amended_witness :
    (getEntityAndAwards 2024 10 (.noResponse : Outcome SamEntitiesPayload)
        (.noResponse : Outcome SpendingByAwardPayload)).1
      = .error ("SAM.gov error: "
          ++ jsTemplateStr (samGet "/entity-information/v4/entities"
              (.noResponse : Outcome SamEntitiesPayload)).resp.error) ∧
    (getEntityAndAwards 2024 10 (.ok samPayloadAcme) .noResponse).1
      = .joined
          (extractEntity ⟨some ⟨some "UEI123", some "ACME CORP", none, none, none, none⟩, none⟩)
          { fiscal_year := 2024, total_amount := 0, award_count := 0,
            awards_shown := 0, awards := [] } ∧
    (getOpportunitySpendingContext (some "N1") none 2024
        (.noResponse : Outcome OpportunitiesPayload)
        (.noResponse : Outcome SpendingByAwardPayload)).1
      = .error ("SAM.gov error: "
          ++ jsTemplateStr (samGet "/opportunities/v2/search"
              (.noResponse : Outcome OpportunitiesPayload)).resp.error) ∧
    (getOpportunitySpendingContext (some "N1") none 2024
        (.ok ⟨some [⟨some "N1", none, none, none, none, none, none, some "541511",
            none, none⟩]⟩)
        (.noResponse : Outcome SpendingByAwardPayload)).1
      = .joined
          (extractOppDetails ⟨some "N1", none, none, none, none, none, none,
            some "541511", none, none⟩)
          (defaultSpendingContext (some "541511"))
          (marketAnalysisOf (defaultSpendingContext (some "541511"))) 2024 := by
  refine ⟨?_, ?_, ?_, ?_⟩
  · exact join_failure_semantics_amended.1 2024 10 .noResponse .noResponse rfl
  · exact join_failure_semantics_amended.2.1 2024 10 samPayloadAcme
      ⟨some ⟨some "UEI123", some "ACME CORP", none, none, none, none⟩, none⟩
      .noResponse rfl rfl
  · exact join_failure_semantics_amended.2.2.1 (some "N1") none 2024 .noResponse
      .noResponse rfl
  · exact join_failure_semantics_amended.2.2.2 (some "N1") none 2024
      ⟨some [⟨some "N1", none, none, none, none, none, none, some "541511", none, none⟩]⟩
      ⟨some "N1", none, none, none, none, none, none, some "541511", none, none⟩
      .noResponse rfl rfl rfl

/-- Filtering on a mapped predicate commutes with mapping. -/
theorem filter_map_comm (f : α → β) (p : β → Bool) (l : List α) :
    (l.filter (fun x => p (f x))).map f = (l.map f).filter p := by
  induction l with
  | nil => rfl
  | cons a t ih => by_cases h : p (f a) <;> simp [h, ih]

/-- Claim C10: on a successful spending-family response the market
context aggregates range over exactly the strictly positive award
amounts of the sample — the total is their sum, the average is that sum
divided by their count (and 0 when none is positive) — and appending an
award with a non-positive (or missing) amount changes neither
aggregate. -/
theorem spending_context_positive_aggregates
    (naics : Option String) (rows : List AwardRow) (pageTotal : Option Rat) :
    ((computeSpendingContext naics rows pageTotal).total_spending
        = ((rows.filter (fun r => decide (0 < jsOrNum r.awardAmount 0))).map
            (fun r => jsOrNum r.awardAmount 0)).sum) ∧
    ((computeSpendingContext naics rows pageTotal).average_award_amount
        = if rows.filter (fun r => decide (0 < jsOrNum r.awardAmount 0)) = [] then 0
          else ((rows.filter (fun r => decide (0 < jsOrNum r.awardAmount 0))).map
              (fun r => jsOrNum r.awardAmount 0)).sum
            / ((rows.filter (fun r => decide (0 < jsOrNum r.awardAmount 0))).length : Rat)) ∧
    (∀ r, jsOrNum r.awardAmount 0 ≤ 0 →
      (computeSpendingContext naics (rows ++ [r]) pageTotal).total_spending
          = (computeSpendingContext naics rows pageTotal).total_spending ∧
      (computeSpendingContext naics (rows ++ [r]) pageTotal).average_award_amount
          = (computeSpendingContext naics rows pageTotal).average_award_amount) ∧
    ((∀ r ∈ rows, jsOrNum r.awardAmount 0 ≤ 0) →
      (computeSpendingContext naics rows pageTotal).average_award_amount = 0 ∧
      (computeSpendingContext naics rows pageTotal).total_spending = 0) := by
  have key : ∀ rs : List AwardRow,
      ((rs.map (fun r => jsOrNum r.awardAmount 0)).filter (fun amt => decide (0 < amt)))
        = (rs.filter (fun r => decide (0 < jsOrNum r.awardAmount 0))).map
            (fun r => jsOrNum r.awardAmount 0) :=
    fun rs => (filter_map_comm (fun r => jsOrNum r.awardAmount 0)
      (fun amt => decide (0 < amt)) rs).symm
  have hfold : ∀ l : List Rat, l.foldl (fun a b => a + b) 0 = l.sum :=
    fun l => (@List.sum_eq_foldl _ _ l).symm
  have htotal : ∀ rs : List AwardRow,
      (computeSpendingContext naics rs pageTotal).total_spending
        = ((rs.filter (fun r => decide (0 < jsOrNum r.awardAmount 0))).map
            (fun r => jsOrNum r.awardAmount 0)).sum := by
    intro rs
    simp only [computeSpendingContext]
    rw [key, hfold]
  have havg : ∀ rs : List AwardRow,
      (computeSpendingContext naics rs pageTotal).average_award_amount
        = if rs.filter (fun r => decide (0 < jsOrNum r.awardAmount 0)) = [] then 0
          else ((rs.filter (fun r => decide (0 < jsOrNum r.awardAmount 0))).map
              (fun r => jsOrNum r.awardAmount 0)).sum
            / ((rs.filter (fun r => decide (0 < jsOrNum r.awardAmount 0))).length : Rat) := by
    intro rs
    simp only [computeSpendingContext]
    rw [key]
    cases h : rs.filter (fun r => decide (0 < jsOrNum r.awardAmount 0)) with
    | nil => simp [h]
    | cons a t => simp [h, hfold]
  refine ⟨htotal rows, havg rows, ?_, ?_⟩
  · intro r hr
    have hdrop : (rows ++ [r]).filter (fun x => decide (0 < jsOrNum x.awardAmount 0))
        = rows.filter (fun x => decide (0 < jsOrNum x.awardAmount 0)) := by
      rw [List.filter_append]
      simp [List.filter, decide_eq_false (not_lt.mpr hr)]
    exact ⟨by rw [htotal, htotal, hdrop], by rw [havg, havg, hdrop]⟩
  · intro hall
    have hnil : rows.filter (fun r => decide (0 < jsOrNum r.awardAmount 0)) = [] := by
      rw [List.filter_eq_nil_iff]
      intro r hr
      simp [decide_eq_false (not_lt.mpr (hall r hr))]
    exact ⟨by rw [havg, if_pos hnil], by rw [htotal, hnil]; rfl⟩

/-- A concrete spending sample: amounts 100, −5, 0 and one missing. -/
def awardRowsSample : List AwardRow :=
  [⟨some "A1", some "R1", some 100, none, none, none, none, none⟩,
   ⟨some "A2", some "R2", some (-5), none, none, none, none, none⟩,
   ⟨some "A3", some "R3", some 0, none, none, none, none, none⟩,
   ⟨some "A4", some "R4", none, none, none, none, none, none⟩]

/-- Witness for C10: the aggregate formulas instantiated on the concrete
sample, and a zero-amount award appended to it leaves the total
unchanged. -/
theorem spending_context_positive_aggregates_witness :
    ((computeSpendingContext (some "541511") awardRowsSample none).average_award_amount
        = if awardRowsSample.filter (fun r => decide (0 < jsOrNum r.awardAmount 0)) = []
          then 0
          else ((awardRowsSample.filter
              (fun r => decide (0 < jsOrNum r.awardAmount 0))).map
              (fun r => jsOrNum r.awardAmount 0)).sum
            / ((awardRowsSample.filter
              (fun r => decide (0 < jsOrNum r.awardAmount 0))).length : Rat)) ∧
    ((computeSpendingContext (some "541511")
        (awardRowsSample ++ [⟨none, none, some 0, none, none, none, none, none⟩])
        none).total_spending
      = (computeSpendingContext (some "541511") awardRowsSample none).total_spending) := by
  refine ⟨(spending_context_positive_aggregates (some "541511") awardRowsSample none).2.1, ?_⟩
  exact ((spending_context_positive_aggregates (some "541511") awardRowsSample none).2.2.1
    ⟨none, none, some 0, none, none, none, none, none⟩ (by norm_num [jsOrNum])).1

/-! ### Spending-summary lemmas -/

theorem upsertGroup_total_sum (gs : List SpendingGroup) (k l : String) (a : Rat) :
    ((upsertGroup gs k l a).map (fun g => g.totalObligated)).sum
      = (gs.map (fun g => g.totalObligated)).sum + a := by
  induction gs with
  | nil => simp [upsertGroup]
  | cons g t ih =>
    by_cases h : g.key = k
    · simp [upsertGroup, h]
      ring
    · simp [upsertGroup, h, ih]
      ring

theorem upsertGroup_count_sum (gs : List SpendingGroup) (k l : String) (a : Rat) :
    ((upsertGroup gs k l a).map (fun g => g.contractCount)).sum
      = (gs.map (fun g => g.contractCount)).sum + 1 := by
  induction gs with
  | nil => simp [upsertGroup]
  | cons g t ih =>
    by_cases h : g.key = k
    · simp [upsertGroup, h]
      omega
    · simp [upsertGroup, h, ih]
      omega

theorem foldl_upsert_total (kl : NormalizedContract → String × String)
    (ns : List NormalizedContract) (acc : List SpendingGroup) :
    ((ns.foldl (fun gs c => upsertGroup gs (kl c).1 (kl c).2 c.obligated) acc).map
        (fun g => g.totalObligated)).sum
      = (acc.map (fun g => g.totalObligated)).sum
        + (ns.map (fun n => n.obligated)).sum := by
  induction ns generalizing acc with
  | nil => simp
  | cons c t ih =>
    rw [List.foldl_cons, ih, upsertGroup_total_sum]
    simp
    ring

theorem foldl_upsert_count (kl : NormalizedContract → String × String)
    (ns : List NormalizedContract) (acc : List SpendingGroup) :
    ((ns.foldl (fun gs c => upsertGroup gs (kl c).1 (kl c).2 c.obligated) acc).map
        (fun g => g.contractCount)).sum
      = (acc.map (fun g => g.contractCount)).sum + ns.length := by
  induction ns generalizing acc with
  | nil => simp
  | cons c t ih =>
    rw [List.foldl_cons, ih, upsertGroup_count_sum]
    simp
    omega

theorem foldl_add_eq_sum (f : α → Rat) (l : List α) (a : Rat) :
    l.foldl (fun s c => s + f c) a = a + (l.map f).sum := by
  induction l generalizing a with
  | nil => simp
  | cons c t ih =>
    rw [List.foldl_cons, ih]
    simp
    ring

/-- An amount that is a whole number of cents. -/
def CentValued (q : Rat) : Prop := ∃ z : Int, q = (z : Rat) / 100

theorem centValued_add {a b : Rat} (ha : CentValued a) (hb : CentValued b) :
    CentValued (a + b) := by
  obtain ⟨x, rfl⟩ := ha
  obtain ⟨y, rfl⟩ := hb
  exact ⟨x + y, by push_cast; ring⟩

theorem centValued_zero : CentValued 0 := ⟨0, by norm_num⟩

theorem centValued_sum {l : List Rat} (h : ∀ q ∈ l, CentValued q) :
    CentValued l.sum := by
  induction l with
  | nil => simpa using centValued_zero
  | cons a t ih =>
    rw [List.sum_cons]
    exact centValued_add (h a (by simp)) (ih (fun q hq => h q (by simp [hq])))

theorem round2_centValued {q : Rat} (h : CentValued q) : round2 q = q := by
  obtain ⟨z, rfl⟩ := h
  unfold round2
  rw [div_mul_cancel₀ _ (by norm_num : (100 : Rat) ≠ 0), round_intCast]

theorem round2_mono {a b : Rat} (h : a ≤ b) : round2 a ≤ round2 b := by
  unfold round2
  have h1 : round (a * 100) ≤ round (b * 100) := by
    rw [round_eq, round_eq]
    exact Int.floor_mono (by linarith)
  have h2 : ((round (a * 100) : Int) : Rat) ≤ ((round (b * 100) : Int) : Rat) := by
    exact_mod_cast h1
  exact (div_le_div_iff_of_pos_right (by norm_num : (0 : Rat) < 100)).mpr h2

theorem upsertGroup_mem_cent {gs : List SpendingGroup} {k l : String} {a : Rat}
    (hgs : ∀ g ∈ gs, CentValued g.totalObligated) (ha : CentValued a) :
    ∀ g ∈ upsertGroup gs k l a, CentValued g.totalObligated := by
  induction gs with
  | nil =>
    intro g hg
    simp [upsertGroup] at hg
    subst hg
    simpa using centValued_add centValued_zero ha
  | cons g0 t ih =>
    intro g hg
    by_cases h : g0.key = k
    · simp [upsertGroup, h] at hg
      rcases hg with rfl | hg
      · exact centValued_add (hgs g0 (by simp)) ha
      · exact hgs g (by simp [hg])
    · simp [upsertGroup, h] at hg
      rcases hg with rfl | hg
      · exact hgs g (by simp)
      · exact ih (fun x hx => hgs x (by simp [hx])) g hg

theorem foldl_upsert_cent (kl : NormalizedContract → String × String)
    (ns : List NormalizedContract) (acc : List SpendingGroup)
    (hacc : ∀ g ∈ acc, CentValued g.totalObligated)
    (hns : ∀ n ∈ ns, CentValued n.obligated) :
    ∀ g ∈ ns.foldl (fun gs c => upsertGroup gs (kl c).1 (kl c).2 c.obligated) acc,
      CentValued g.totalObligated := by
  induction ns generalizing acc with
  | nil => simpa using hacc
  | cons c t ih =>
    rw [List.foldl_cons]
    exact ih _ (upsertGroup_mem_cent hacc (hns c (by simp)))
      (fun n hn => hns n (by simp [hn]))

theorem groupDescLe_trans (a b c : SpendingGroup)
    (hab : groupDescLe a b = true) (hbc : groupDescLe b c = true) :
    groupDescLe a c = true := by
  simp [groupDescLe] at *
  exact le_trans hbc hab

theorem groupDescLe_total (a b : SpendingGroup) :
    (groupDescLe a b || groupDescLe b a) = true := by
  simp [groupDescLe]
  exact le_total b.totalObligated a.totalObligated

theorem spendingBreakdown_facts_aux (l : List SpendingGroup) : ∀ n : Nat,
    (((l.enumFrom n).map (fun p =>
        ({ rank := p.1 + 1, key := p.2.key, label := p.2.label,
           total_obligated := round2 p.2.totalObligated,
           contract_count := p.2.contractCount } : BreakdownEntry))).map
        (fun e => e.total_obligated)
      = l.map (fun g => round2 g.totalObligated)) ∧
    (((l.enumFrom n).map (fun p =>
        ({ rank := p.1 + 1, key := p.2.key, label := p.2.label,
           total_obligated := round2 p.2.totalObligated,
           contract_count := p.2.contractCount } : BreakdownEntry))).map
        (fun e => e.contract_count)
      = l.map (fun g => g.contractCount)) ∧
    (((l.enumFrom n).map (fun p =>
        ({ rank := p.1 + 1, key := p.2.key, label := p.2.label,
           total_obligated := round2 p.2.totalObligated,
           contract_count := p.2.contractCount } : BreakdownEntry))).map
        (fun e => e.rank)
      = List.range' (n + 1) l.length) := by
  induction l with
  | nil => intro n; exact ⟨rfl, rfl, rfl⟩
  | cons g t ih =>
    intro n
    obtain ⟨h1, h2, h3⟩ := ih (n + 1)
    refine ⟨?_, ?_, ?_⟩
    · show round2 g.totalObligated :: _ = round2 g.totalObligated :: _
      rw [h1]
    · show g.contractCount :: _ = g.contractCount :: _
      rw [h2]
    · show (n + 1) :: _ = List.range' (n + 1) (t.length + 1)
      rw [h3, List.range'_succ]

theorem spendingBreakdown_map_total (gs : List SpendingGroup) :
    (spendingBreakdown gs).map (fun e => e.total_obligated)
      = (gs.mergeSort groupDescLe).map (fun g => round2 g.totalObligated) :=
  (spendingBreakdown_facts_aux (gs.mergeSort groupDescLe) 0).1

theorem spendingBreakdown_map_count (gs : List SpendingGroup) :
    (spendingBreakdown gs).map (fun e => e.contract_count)
      = (gs.mergeSort groupDescLe).map (fun g => g.contractCount) :=
  (spendingBreakdown_facts_aux (gs.mergeSort groupDescLe) 0).2.1

theorem spendingBreakdown_ranks (gs : List SpendingGroup) :
    (spendingBreakdown gs).map (fun e => e.rank)
      = List.range' 1 (spendingBreakdown gs).length := by
  have h := (spendingBreakdown_facts_aux (gs.mergeSort groupDescLe) 0).2.2
  have hlen : (spendingBreakdown gs).length = (gs.mergeSort groupDescLe).length := by
    unfold spendingBreakdown
    rw [List.length_map, List.enum_length]
  rw [hlen]
  exact h

theorem spendingBreakdown_sorted (gs : List SpendingGroup) :
    ((spendingBreakdown gs).map (fun e => e.total_obligated)).Pairwise
      (fun a b => b ≤ a) := by
  rw [spendingBreakdown_map_total]
  have hsorted := List.sorted_mergeSort groupDescLe_trans groupDescLe_total gs
  exact List.Pairwise.map _
    (fun a b hab => round2_mono (by simpa [groupDescLe] using hab)) hsorted

theorem spendingGroups_total_sum (gb : String) (ns : List NormalizedContract) :
    ((spendingGroups gb ns (ns.foldl (fun sum c => sum + c.obligated) 0)).map
        (fun g => g.totalObligated)).sum
      = (ns.map (fun n => n.obligated)).sum := by
  unfold spendingGroups
  split
  · simpa using foldl_upsert_total (groupKeyLabel gb) ns []
  · rw [upsertGroup_total_sum]
    simp [foldl_add_eq_sum]

theorem spendingGroups_count_sum (gb : String) (ns : List NormalizedContract)
    (T : Rat)
    (hdim : gb = "agency" ∨ gb = "vendor" ∨ gb = "naics" ∨ gb = "psc" ∨ gb = "month") :
    ((spendingGroups gb ns T).map (fun g => g.contractCount)).sum = ns.length := by
  unfold spendingGroups
  split
  · simpa using foldl_upsert_count (groupKeyLabel gb) ns []
  · next h =>
    exfalso
    rcases hdim with rfl | rfl | rfl | rfl | rfl <;> simp at h

theorem spendingGroups_cent (gb : String) (ns : List NormalizedContract) (T : Rat)
    (hns : ∀ n ∈ ns, CentValued n.obligated) (hT : CentValued T) :
    ∀ g ∈ spendingGroups gb ns T, CentValued g.totalObligated := by
  unfold spendingGroups
  split
  · exact foldl_upsert_cent (groupKeyLabel gb) ns [] (by simp) hns
  · intro g hg
    simp [upsertGroup] at hg
    subst hg
    simpa using centValued_add centValued_zero hT

/-- Claim C9 as amended: for any fixed list of contract records, the
bucket totals conserve the input sum exactly *before* the final
two-decimal rounding; the reported breakdown is sorted by descending
total with ranks 1..k assigned without gaps; records with missing group
values land in the explicit sentinel buckets (`"UNK"`,
`"Unspecified NAICS"`, `"Unspecified PSC"`, month `"Unknown"`) and none
is dropped (bucket counts sum to the record count); and whenever every
input amount is a whole number of cents the reported (rounded) totals
also sum exactly to the input sum.  The original claim's exact
conservation of the *reported* totals fails for sub-cent amounts, which
`toFixed(2)` rounds away. -/
theorem getSpendingSummary_grouping (group_by : String)
    (contracts : List TangoContract) :
    (((spendingGroups group_by (contracts.map normalizeContract)
          ((contracts.map normalizeContract).foldl (fun sum c => sum + c.obligated) 0)).map
        (fun g => g.totalObligated)).sum
      = ((contracts.map normalizeContract).map (fun n => n.obligated)).sum) ∧
    ((group_by = "agency" ∨ group_by = "vendor" ∨ group_by = "naics" ∨
        group_by = "psc" ∨ group_by = "month") →
      (((getSpendingSummary group_by contracts).breakdown.map
          (fun e => e.contract_count)).sum = contracts.length)) ∧
    (((getSpendingSummary group_by contracts).breakdown.map
        (fun e => e.total_obligated)).Pairwise (fun a b => b ≤ a)) ∧
    ((getSpendingSummary group_by contracts).breakdown.map (fun e => e.rank)
      = List.range' 1 (getSpendingSummary group_by contracts).breakdown.length) ∧
    ((∀ c : NormalizedContract, c.awardingAgencyCode = none →
        (groupKeyLabel "agency" c).1 = "UNK") ∧
     (∀ c : NormalizedContract, c.naics = none →
        (groupKeyLabel "naics" c).1 = "Unspecified NAICS") ∧
     (∀ c : NormalizedContract, c.psc = none →
        (groupKeyLabel "psc" c).1 = "Unspecified PSC") ∧
     (∀ c : NormalizedContract, c.awardDate = none →
        (groupKeyLabel "month" c).1 = "Unknown")) ∧
    ((∀ n ∈ contracts.map normalizeContract, CentValued n.obligated) →
      (((getSpendingSummary group_by contracts).breakdown.map
          (fun e => e.total_obligated)).sum
        = ((contracts.map normalizeContract).map (fun n => n.obligated)).sum)) := by
  have hb : (getSpendingSummary group_by contracts).breakdown
      = spendingBreakdown (spendingGroups group_by (contracts.map normalizeContract)
          ((contracts.map normalizeContract).foldl (fun sum c => sum + c.obligated) 0)) :=
    rfl
  have hperm := List.mergeSort_perm
    (spendingGroups group_by (contracts.map normalizeContract)
      ((contracts.map normalizeContract).foldl (fun sum c => sum + c.obligated) 0))
    groupDescLe
  refine ⟨spendingGroups_total_sum group_by (contracts.map normalizeContract),
    ?_, ?_, ?_, ⟨?_, ?_, ?_, ?_⟩, ?_⟩
  · intro hdim
    rw [hb, spendingBreakdown_map_count,
      (hperm.map (fun g => g.contractCount)).sum_eq,
      spendingGroups_count_sum group_by (contracts.map normalizeContract) _ hdim,
      List.length_map]
  · rw [hb]
    exact spendingBreakdown_sorted _
  · rw [hb]
    exact spendingBreakdown_ranks _
  · intro c h
    simp [groupKeyLabel, agencyKeyLabel, safeLabel, h]
  · intro c h
    simp [groupKeyLabel, safeLabel, h]
  · intro c h
    simp [groupKeyLabel, safeLabel, h]
  · intro c h
    simp [groupKeyLabel, formatMonth, h]
  · intro hcent
    have hT : CentValued
        ((contracts.map normalizeContract).foldl (fun sum c => sum + c.obligated) 0) := by
      rw [foldl_add_eq_sum (fun n => n.obligated) (contracts.map normalizeContract) 0]
      refine centValued_add centValued_zero (centValued_sum ?_)
      intro q hq
      obtain ⟨n, hn, rfl⟩ := List.mem_map.mp hq
      exact hcent n hn
    have hcg := spendingGroups_cent group_by (contracts.map normalizeContract) _ hcent hT
    rw [hb, spendingBreakdown_map_total]
    have hmapeq : (((spendingGroups group_by (contracts.map normalizeContract)
          ((contracts.map normalizeContract).foldl (fun sum c => sum + c.obligated) 0)).mergeSort
            groupDescLe).map (fun g => round2 g.totalObligated))
        = (((spendingGroups group_by (contracts.map normalizeContract)
          ((contracts.map normalizeContract).foldl (fun sum c => sum + c.obligated) 0)).mergeSort
            groupDescLe).map (fun g => g.totalObligated)) := by
      refine List.map_congr_left ?_
      intro g hg
      exact round2_centValued (hcg g (hperm.mem_iff.mp hg))
    rw [hmapeq, (hperm.map (fun g => g.totalObligated)).sum_eq]
    exact spendingGroups_total_sum group_by (contracts.map normalizeContract)

/-- A contract obligating 0.004 dollars (a sub-cent amount) to the given
agency code, every other field absent. -/
def subCentContract (code : String) : TangoContract :=
  { key := none, piid := none, contract_id := none,
    obligated := some (1 / 250), total_contract_value := none,
    base_and_exercised_options_value := none, award_date := none,
    date_signed := none, awarding_office := none, agency_name := none,
    agency_code := some code, recipient := none, vendor_name := none,
    vendor_uei := none, naics_code := none, naics := none, psc_code := none,
    psc := none }

/-- Counterexample to claim C9: two contracts of 0.004 each, grouped by
agency into two buckets, report bucket totals that sum to 0 — the
per-bucket `toFixed(2)` rounding loses the sub-cent amounts — while the
input amounts sum to 1/125 = 0.008, so the reported bucket totals do
not sum exactly to the input sum. -/
theorem getSpendingSummary_rounding_counterexample :
    (((getSpendingSummary "agency" [subCentContract "A", subCentContract "B"]).breakdown.map
        (fun e => e.total_obligated)).sum = 0) ∧
    ((([subCentContract "A", subCentContract "B"].map normalizeContract).map
        (fun n => n.obligated)).sum = 1 / 125) ∧
    (((getSpendingSummary "agency" [subCentContract "A", subCentContract "B"]).breakdown.map
        (fun e => e.total_obligated)).sum
      ≠ (([subCentContract "A", subCentContract "B"].map normalizeContract).map
          (fun n => n.obligated)).sum) := by
  have hround : round2 (1 / 250) = 0 := by
    unfold round2
    norm_num [round_eq]
  have hgs : (spendingGroups "agency"
      ([subCentContract "A", subCentContract "B"].map normalizeContract)
      (([subCentContract "A", subCentContract "B"].map normalizeContract).foldl
        (fun sum c => sum + c.obligated) 0)).map (fun g => round2 g.totalObligated)
      = [round2 (1 / 250), round2 (1 / 250)] := by
    simp [spendingGroups, groupKeyLabel, agencyKeyLabel, safeLabel, normalizeContract,
      subCentContract, jsOrOpt, upsertGroup, jsTrim, jsTrimLeft, jsTrimRight,
      isJsWhitespace]
  have hsum0 : ((getSpendingSummary "agency"
      [subCentContract "A", subCentContract "B"]).breakdown.map
        (fun e => e.total_obligated)).sum = 0 := by
    have hb : (getSpendingSummary "agency"
        [subCentContract "A", subCentContract "B"]).breakdown
        = spendingBreakdown (spendingGroups "agency"
            ([subCentContract "A", subCentContract "B"].map normalizeContract)
            (([subCentContract "A", subCentContract "B"].map normalizeContract).foldl
              (fun sum c => sum + c.obligated) 0)) := rfl
    rw [hb, spendingBreakdown_map_total,
      ((List.mergeSort_perm _ groupDescLe).map (fun g => round2 g.totalObligated)).sum_eq,
      hgs, hround]
    norm_num
  have hin : (([subCentContract "A", subCentContract "B"].map normalizeContract).map
      (fun n => n.obligated)).sum = 1 / 125 := by
    simp [normalizeContract, subCentContract, jsOrOpt]
    norm_num
  refine ⟨hsum0, hin, ?_⟩
  rw [hsum0, hin]
  norm_num

/-- A contract with a known agency code and amount, every other field
absent. -/
def syntheticContract (code : String) (amount : Rat) : TangoContract :=
  { key := none, piid := none, contract_id := none,
    obligated := some amount, total_contract_value := none,
    base_and_exercised_options_value := none, award_date := none,
    date_signed := none, awarding_office := none, agency_name := none,
    agency_code := some code, recipient := none, vendor_name := none,
    vendor_uei := none, naics_code := none, naics := none, psc_code := none,
    psc := none }

/-- The spec's synthetic page: five contracts with known amounts and
agencies. -/
def syntheticContracts : List TangoContract :=
  [syntheticContract "A" 500, syntheticContract "B" 300,
   syntheticContract "A" 200, syntheticContract "C" 100,
   syntheticContract "B" 400]

/-- Witness for the amended C9 on the synthetic five-record page grouped
by agency: bucket counts sum to 5, the reported (rounded) totals sum
exactly to the input sum since every amount is cent-valued, and a record
with no agency code keys the `"UNK"` sentinel bucket. -/
theorem getSpendingSummary_grouping_witness :
    (((getSpendingSummary "agency" syntheticContracts).breakdown.map
        (fun e => e.contract_count)).sum = syntheticContracts.length) ∧
    (((getSpendingSummary "agency" syntheticContracts).breakdown.map
        (fun e => e.total_obligated)).sum
      = ((syntheticContracts.map normalizeContract).map (fun n => n.obligated)).sum) ∧
    (groupKeyLabel "agency"
      ⟨none, 0, none, none, none, none, none, none, none⟩).1 = "UNK" := by
  have hcent : ∀ n ∈ syntheticContracts.map normalizeContract,
      CentValued n.obligated := by
    intro n hn
    simp only [syntheticContracts, List.map_cons, List.map_nil, List.mem_cons,
      List.not_mem_nil, or_false] at hn
    rcases hn with rfl | rfl | rfl | rfl | rfl
    · exact ⟨50000, by norm_num [normalizeContract, syntheticContract]⟩
    · exact ⟨30000, by norm_num [normalizeContract, syntheticContract]⟩
    · exact ⟨20000, by norm_num [normalizeContract, syntheticContract]⟩
    · exact ⟨10000, by norm_num [normalizeContract, syntheticContract]⟩
    · exact ⟨40000, by norm_num [normalizeContract, syntheticContract]⟩
  exact ⟨(getSpendingSummary_grouping "agency" syntheticContracts).2.1 (Or.inl rfl),
    (getSpendingSummary_grouping "agency" syntheticContracts).2.2.2.2.2 hcent,
    (getSpendingSummary_grouping "agency" syntheticContracts).2.2.2.2.1.1
      ⟨none, 0, none, none, none, none, none, none, none⟩ rfl⟩
